import Mathlib

/-!
Shallow embedding of the Panel Holder Tracking application (src/app.py).

The application keeps two tables: a live Inventory table (one row per
registered panel holder, mutated in place on every transaction) and a
History table (append-only transaction log).  The UI offers two state
changing operations: registering a new panel ID, and submitting an
Install/Remove transaction for an ID already present in the Inventory
table.  Both operations persist the tables wholesale to disk.

Timestamps are modelled as natural numbers; the formatted date string of
a history row is identified with its timestamp.
-/

namespace PanelTracking

/-- One row of the Inventory table (columns Panel_ID, Status, Sub_Status,
Location, Last_Updated from load_data in src/app.py). -/
structure InvRow where
  panel_ID : String
  status : String
  sub_Status : String
  location : String
  last_Updated : Nat
deriving DecidableEq, Repr

/-- One row of the History table (columns Date, Panel_ID, Action, User,
Category, Sub_Status, Comments from load_data in src/app.py). -/
structure HistRow where
  date : Nat
  panel_ID : String
  action : String
  user : String
  category : String
  sub_Status : String
  comments : String
deriving DecidableEq, Repr

/-- The machine list MACHINES in src/app.py. -/
def MACHINES : List String := ["ECP 101", "ECP 102", "ECP 103"]

/-- The removal reason options offered by the Removal Reason selectbox. -/
def removalReasons : List String :=
  ["Repair", "Preventive Maintenance", "Damaged", "Other"]

/-- The failure source category options offered by the selectbox. -/
def failureCategories : List String := ["CSS", "Tape", "Other"]

/-- The repair pipeline options offered by the Repair Pipeline Status
selectbox. -/
def repairStages : List String := ["To check", "Waiting Parts", "Ready to Install"]

/-- Parameters gathered by the removal branch of the lifecycle form:
the Removal Reason selectbox, the Failure Source Category selectbox, the
free-text input shown when the category is Other, and the Repair Pipeline
Status selectbox shown when the reason is Repair. -/
structure RemoveParams where
  reason : String
  category : String
  otherComment : String
  stage : String
deriving DecidableEq, Repr

/-- The activity chosen on the lifecycle form: Install to Machine with a
target machine, or Remove from Machine with the removal parameters. -/
inductive Activity
  | installToMachine (machine : String)
  | removeFromMachine (p : RemoveParams)
deriving DecidableEq, Repr

/-- The op_type string shown in the radio widget and stored in the
Action column of the history log. -/
def opTypeStr : Activity → String
  | .installToMachine _ => "Install to Machine"
  | .removeFromMachine _ => "Remove from Machine"

/-- The category variable of the form: initialized to Production and
overwritten by the Failure Source Category selectbox in the removal
branch only. -/
def activityCategory : Activity → String
  | .installToMachine _ => "Production"
  | .removeFromMachine p => p.category

/-- The other_comment variable: empty unless the removal branch shows the
Other-details input (category = Other).  In the install branch the
variable is never consulted, because the guard and the comment format
both test category = Other first. -/
def activityOtherComment : Activity → String
  | .installToMachine _ => ""
  | .removeFromMachine p => if p.category = "Other" then p.otherComment else ""

/-- The final_status assignment of the lifecycle form (lines 124-151 of
src/app.py). -/
def finalStatus : Activity → String
  | .installToMachine _ => "In Use"
  | .removeFromMachine p =>
      if p.reason = "Repair" then "Under Repair"
      else if p.reason = "Preventive Maintenance" then "Under PM"
      else if p.reason = "Damaged" then "Damaged"
      else "Other"

/-- The final_sub_status assignment of the lifecycle form. -/
def finalSubStatus : Activity → String
  | .installToMachine _ => "N/A"
  | .removeFromMachine p => if p.reason = "Repair" then p.stage else "N/A"

/-- The final_location assignment of the lifecycle form. -/
def finalLocation : Activity → String
  | .installToMachine m => m
  | .removeFromMachine _ => "Workshop"

/-- The guard on SUBMIT TRANSACTION (line 156 of src/app.py): the
transaction is rejected when category is Other and the Other-details
input is empty. -/
def rejected (a : Activity) : Bool :=
  activityCategory a = "Other" && activityOtherComment a = ""

/-- The full_comment string composed on submit (line 159 of src/app.py). -/
def fullComment (a : Activity) (notes : String) : String :=
  if activityCategory a = "Other" then
    "[" ++ activityCategory a ++ "] " ++ activityOtherComment a ++ " | " ++ notes
  else
    "[" ++ activityCategory a ++ "] " ++ notes

/-- The in-memory and on-disk state of the system: the two loaded tables,
the PanelID.txt master list, and the two persisted tables. -/
structure SysState where
  inv : List InvRow
  hist : List HistRow
  master : List String
  diskInv : List InvRow
  diskHist : List HistRow
deriving DecidableEq, Repr

/-- Membership test for a Panel_ID in the Inventory table
(pid_input in df_inv['Panel_ID'].values). -/
def invHasId (inv : List InvRow) (pid : String) : Bool :=
  inv.any (fun r => r.panel_ID = pid)

/-- The in-place inventory update of line 162 of src/app.py: every row
whose Panel_ID equals pid gets its Status, Sub_Status, Location and
Last_Updated columns overwritten; no row is added or removed. -/
def updateInventory (inv : List InvRow) (pid st ss loc : String) (now : Nat) :
    List InvRow :=
  inv.map (fun r =>
    if r.panel_ID = pid then
      { r with status := st, sub_Status := ss, location := loc, last_Updated := now }
    else r)

/-- The history row appended by SUBMIT TRANSACTION (lines 165-173 of
src/app.py). -/
def logEntryOf (pid tech : String) (a : Activity) (notes : String) (now : Nat) :
    HistRow :=
  { date := now
    panel_ID := pid
    action := opTypeStr a
    user := tech
    category := activityCategory a
    sub_Status := finalSubStatus a
    comments := fullComment a notes }

/-- The SUBMIT TRANSACTION handler (lines 155-178 of src/app.py): if the
Other-category guard fires, nothing changes; otherwise the inventory is
updated in place, one history row is appended, and both tables are
persisted via save_data. -/
def submitTransaction (s : SysState) (pid tech : String) (a : Activity)
    (notes : String) (now : Nat) : SysState :=
  if rejected a then s
  else
    let inv2 := updateInventory s.inv pid (finalStatus a) (finalSubStatus a)
      (finalLocation a) now
    let hist2 := s.hist ++ [logEntryOf pid tech a notes now]
    { inv := inv2, hist := hist2, master := s.master,
      diskInv := inv2, diskHist := hist2 }

/-- The registration handler (lines 95-112 of src/app.py): append one new
inventory row with Status Storage, Sub_Status N/A, Location Storage,
append the ID to PanelID.txt when missing there, and persist both tables
via save_data.  The history table is not touched. -/
def registerAsset (s : SysState) (pid : String) (now : Nat) : SysState :=
  let newAsset : InvRow :=
    { panel_ID := pid, status := "Storage", sub_Status := "N/A",
      location := "Storage", last_Updated := now }
  let inv2 := s.inv ++ [newAsset]
  let master2 := if pid ∈ s.master then s.master else s.master ++ [pid]
  { inv := inv2, hist := s.hist, master := master2,
    diskInv := inv2, diskHist := s.hist }

/-- The user-visible state-changing events of the interface. -/
inductive Event
  | register (pid : String) (now : Nat)
  | submit (pid tech : String) (a : Activity) (notes : String) (now : Nat)
deriving DecidableEq, Repr

/-- One reachable state change of the interface.  The Register button is
rendered only for a nonempty scanned ID that is absent from the Inventory
table (lines 81-95 of src/app.py); the action panel is unlocked only for
a nonempty scanned ID present in the Inventory table (lines 116-117). -/
inductive Step : SysState → Event → SysState → Prop
  | register (s : SysState) (pid : String) (now : Nat) :
      pid ≠ "" → invHasId s.inv pid = false →
      Step s (.register pid now) (registerAsset s pid now)
  | submit (s : SysState) (pid tech : String) (a : Activity) (notes : String)
      (now : Nat) :
      pid ≠ "" → invHasId s.inv pid = true →
      Step s (.submit pid tech a notes now) (submitTransaction s pid tech a notes now)

/-- One transaction input of the lifecycle form (technician, activity,
notes, timestamp), for reasoning about sequences of transactions. -/
structure TxnInput where
  tech : String
  activity : Activity
  notes : String
  now : Nat
deriving DecidableEq, Repr

/-- Apply a sequence of transactions against the same Panel_ID, in order. -/
def applyTxns (s : SysState) (pid : String) (ts : List TxnInput) : SysState :=
  ts.foldl (fun s t => submitTransaction s pid t.tech t.activity t.notes t.now) s

/-- Number of Inventory rows carrying a given Panel_ID. -/
def countId (inv : List InvRow) (pid : String) : Nat :=
  (inv.filter (fun r => r.panel_ID = pid)).length

/-! Loading of the two tables (load_data, lines 23-36 of src/app.py).
A raw on-disk table is a column list plus rows of cells; an absent file
is modelled as none. -/

/-- A raw tabular file: its column names and its rows of cells. -/
structure RawTable where
  cols : List String
  rows : List (List String)
deriving DecidableEq, Repr

/-- Adding a column filled with a constant value to every row
(df[c] = v in pandas). -/
def addColumn (t : RawTable) (c v : String) : RawTable :=
  { cols := t.cols ++ [c], rows := t.rows.map (fun r => r ++ [v]) }

/-- The expected Inventory schema of load_data. -/
def inventoryCols : List String :=
  ["Panel_ID", "Status", "Sub_Status", "Location", "Last_Updated"]

/-- The expected History schema of load_data. -/
def historyCols : List String :=
  ["Date", "Panel_ID", "Action", "User", "Category", "Sub_Status", "Comments"]

/-- The load_data function of src/app.py on the two on-disk files: an
absent inventory file yields an empty table with the full schema; a
present inventory file has its Sub_Status column backfilled with N/A
when missing, and is otherwise returned as read.  The history file is
returned exactly as read (empty with the full schema when absent). -/
def load_data (diskInvFile diskHistFile : Option RawTable) :
    RawTable × RawTable :=
  let df_inv :=
    match diskInvFile with
    | none => ({ cols := inventoryCols, rows := [] } : RawTable)
    | some t => if "Sub_Status" ∈ t.cols then t else addColumn t "Sub_Status" "N/A"
  let df_hist :=
    match diskHistFile with
    | none => ({ cols := historyCols, rows := [] } : RawTable)
    | some t => t
  (df_inv, df_hist)

/-! Helper lemmas shared by the claim theorems. -/

theorem submitTransaction_of_rejected (s : SysState) (pid tech : String)
    (a : Activity) (notes : String) (now : Nat) (h : rejected a = true) :
    submitTransaction s pid tech a notes now = s := by
  simp [submitTransaction, h]

theorem submitTransaction_of_committed (s : SysState) (pid tech : String)
    (a : Activity) (notes : String) (now : Nat) (h : rejected a = false) :
    submitTransaction s pid tech a notes now =
      { inv := updateInventory s.inv pid (finalStatus a) (finalSubStatus a)
          (finalLocation a) now,
        hist := s.hist ++ [logEntryOf pid tech a notes now],
        master := s.master,
        diskInv := updateInventory s.inv pid (finalStatus a) (finalSubStatus a)
          (finalLocation a) now,
        diskHist := s.hist ++ [logEntryOf pid tech a notes now] } := by
  simp [submitTransaction, h]

theorem rejected_install (m : String) : rejected (.installToMachine m) = false := by
  simp [rejected, activityCategory]

theorem updateInventory_map_panelID (inv : List InvRow) (pid st ss loc : String)
    (now : Nat) :
    (updateInventory inv pid st ss loc now).map (fun r => r.panel_ID) =
      inv.map (fun r => r.panel_ID) := by
  induction inv with
  | nil => rfl
  | cons r rs ih =>
    simp only [updateInventory, List.map_cons] at ih ⊢
    by_cases h : r.panel_ID = pid <;> simp [h, ih]

theorem countId_eq_count (inv : List InvRow) (pid : String) :
    countId inv pid = (inv.map (fun r => r.panel_ID)).count pid := by
  induction inv with
  | nil => rfl
  | cons r rs ih =>
    simp only [countId, List.filter_cons, List.map_cons, List.count_cons] at ih ⊢
    by_cases h : r.panel_ID = pid <;> simp [h, ih]

theorem countId_updateInventory (inv : List InvRow) (pid pid2 st ss loc : String)
    (now : Nat) :
    countId (updateInventory inv pid2 st ss loc now) pid = countId inv pid := by
  rw [countId_eq_count, countId_eq_count, updateInventory_map_panelID]

theorem invHasId_iff (inv : List InvRow) (pid : String) :
    invHasId inv pid = true ↔ ∃ r ∈ inv, r.panel_ID = pid := by
  simp [invHasId, List.any_eq_true]

theorem mem_updateInventory_eq_pid (inv : List InvRow) (pid st ss loc : String)
    (now : Nat) (r : InvRow) (hr : r ∈ updateInventory inv pid st ss loc now)
    (hpid : r.panel_ID = pid) :
    r.status = st ∧ r.sub_Status = ss ∧ r.location = loc ∧ r.last_Updated = now := by
  unfold updateInventory at hr
  obtain ⟨r0, _, heq⟩ := List.mem_map.mp hr
  by_cases h : r0.panel_ID = pid
  · rw [if_pos h] at heq
    subst heq
    exact ⟨rfl, rfl, rfl, rfl⟩
  · rw [if_neg h] at heq
    subst heq
    exact absurd hpid h

theorem exists_mem_updateInventory (inv : List InvRow) (pid st ss loc : String)
    (now : Nat) (h : invHasId inv pid = true) :
    ∃ r ∈ updateInventory inv pid st ss loc now, r.panel_ID = pid := by
  obtain ⟨r0, hr0, hid⟩ := (invHasId_iff inv pid).mp h
  refine ⟨if r0.panel_ID = pid then
      { r0 with status := st, sub_Status := ss, location := loc, last_Updated := now }
    else r0, List.mem_map_of_mem _ hr0, ?_⟩
  rw [if_pos hid]
  exact hid

/-- A concrete inventory row used to instantiate hypotheses of the claim
theorems on concrete inputs. -/
def sampleRow : InvRow :=
  { panel_ID := "54R15564", status := "Storage", sub_Status := "N/A",
    location := "Storage", last_Updated := 0 }

/-- A concrete system state holding exactly the sample row. -/
def sampleState : SysState :=
  { inv := [sampleRow], hist := [], master := ["54R15564"],
    diskInv := [sampleRow], diskHist := [] }

/-- C2: submitting a Remove transaction with category Other and an empty
Other explanation is rejected atomically: the whole system state — the
Inventory table, the History table and both persisted copies — is left
exactly as it was; no row is inserted, no field overwritten, no log
entry appended. -/
theorem C2_other_empty_rejected (s : SysState) (pid tech notes reason stage : String)
    (now : Nat) :
    submitTransaction s pid tech
      (.removeFromMachine ⟨reason, "Other", "", stage⟩) notes now = s := by
  apply submitTransaction_of_rejected
  simp [rejected, activityCategory, activityOtherComment]

/-- C3: every committed Install transaction with target machine m on an
asset present in Inventory leaves that asset's Inventory row with
Status In Use, Sub_Status N/A and Location m. -/
theorem C3_install_result (s : SysState) (pid tech m notes : String) (now : Nat)
    (hpresent : invHasId s.inv pid = true) :
    (∃ r ∈ (submitTransaction s pid tech (.installToMachine m) notes now).inv,
        r.panel_ID = pid) ∧
    ∀ r ∈ (submitTransaction s pid tech (.installToMachine m) notes now).inv,
      r.panel_ID = pid →
        r.status = "In Use" ∧ r.sub_Status = "N/A" ∧ r.location = m := by
  rw [submitTransaction_of_committed s pid tech _ notes now (rejected_install m)]
  constructor
  · exact exists_mem_updateInventory s.inv pid _ _ _ now hpresent
  · intro r hr hid
    have h := mem_updateInventory_eq_pid s.inv pid _ _ _ now r hr hid
    exact ⟨h.1, h.2.1, h.2.2.1⟩

/-- C3 witness: the theorem instantiated on the sample state, installing
the sample panel into machine ECP 101. -/
theorem C3_install_result_witness :
    (∃ r ∈ (submitTransaction sampleState "54R15564" "Anand"
        (.installToMachine "ECP 101") "" 1).inv, r.panel_ID = "54R15564") ∧
    ∀ r ∈ (submitTransaction sampleState "54R15564" "Anand"
        (.installToMachine "ECP 101") "" 1).inv,
      r.panel_ID = "54R15564" →
        r.status = "In Use" ∧ r.sub_Status = "N/A" ∧ r.location = "ECP 101" :=
  C3_install_result sampleState "54R15564" "Anand" "ECP 101" "" 1 (by decide)

/-- C4: every committed Remove transaction with reason Repair and chosen
pipeline stage on an asset present in Inventory leaves that asset's
Inventory row with Status Under Repair, Sub_Status equal to the chosen
stage and Location Workshop. -/
theorem C4_remove_repair_result (s : SysState) (pid tech notes cat oc stage : String)
    (now : Nat)
    (hcommit : rejected (.removeFromMachine ⟨"Repair", cat, oc, stage⟩) = false)
    (hpresent : invHasId s.inv pid = true) :
    (∃ r ∈ (submitTransaction s pid tech
        (.removeFromMachine ⟨"Repair", cat, oc, stage⟩) notes now).inv,
        r.panel_ID = pid) ∧
    ∀ r ∈ (submitTransaction s pid tech
        (.removeFromMachine ⟨"Repair", cat, oc, stage⟩) notes now).inv,
      r.panel_ID = pid →
        r.status = "Under Repair" ∧ r.sub_Status = stage ∧ r.location = "Workshop" := by
  rw [submitTransaction_of_committed s pid tech _ notes now hcommit]
  have hst : finalStatus (.removeFromMachine ⟨"Repair", cat, oc, stage⟩)
      = "Under Repair" := by
    simp [finalStatus]
  have hss : finalSubStatus (.removeFromMachine ⟨"Repair", cat, oc, stage⟩)
      = stage := by
    simp [finalSubStatus]
  have hloc : finalLocation (.removeFromMachine ⟨"Repair", cat, oc, stage⟩)
      = "Workshop" := rfl
  rw [hst, hss, hloc]
  constructor
  · exact exists_mem_updateInventory s.inv pid _ _ _ now hpresent
  · intro r hr hid
    have h := mem_updateInventory_eq_pid s.inv pid _ _ _ now r hr hid
    exact ⟨h.1, h.2.1, h.2.2.1⟩

/-- C4 witness: the theorem instantiated on the sample state, removing
the sample panel to the repair pipeline at stage Waiting Parts with
failure category CSS. -/
theorem C4_remove_repair_result_witness :
    (∃ r ∈ (submitTransaction sampleState "54R15564" "Anand"
        (.removeFromMachine ⟨"Repair", "CSS", "", "Waiting Parts"⟩) "worn" 2).inv,
        r.panel_ID = "54R15564") ∧
    ∀ r ∈ (submitTransaction sampleState "54R15564" "Anand"
        (.removeFromMachine ⟨"Repair", "CSS", "", "Waiting Parts"⟩) "worn" 2).inv,
      r.panel_ID = "54R15564" →
        r.status = "Under Repair" ∧ r.sub_Status = "Waiting Parts" ∧
          r.location = "Workshop" :=
  C4_remove_repair_result sampleState "54R15564" "Anand" "worn" "CSS" ""
    "Waiting Parts" 2 (by decide) (by decide)

/-- A concrete system state with no inventory rows. -/
def emptyState : SysState :=
  { inv := [], hist := [], master := [], diskInv := [], diskHist := [] }

/-- C1 counterexample: the transaction mutation never inserts an
Inventory row.  Applied to a state whose Inventory table is empty, the
submit handler appends a history log row yet the Inventory table stays
empty — no row for the asset is inserted, refuting the insert-if-absent
half of the claimed upsert. -/
theorem C1_counterexample :
    (submitTransaction emptyState "54R15564" "Anand"
      (.installToMachine "ECP 101") "" 0).inv = [] ∧
    (submitTransaction emptyState "54R15564" "Anand"
      (.installToMachine "ECP 101") "" 0).hist =
      [⟨0, "54R15564", "Install to Machine", "Anand", "Production", "N/A",
        "[Production] "⟩] := by
  constructor <;> rfl

/-- C1 amended: applying a transaction updates the Inventory table
strictly in place — the row count is unchanged (no row is ever inserted),
each row keeps its Panel_ID, rows whose Panel_ID differs from the
asset_id are untouched, a rejected submission touches nothing, and a
committed submission overwrites exactly the Status, Sub_Status, Location
and Last_Updated fields of the rows matching the asset_id; Inventory
rows are created only by registration, and the action-panel gate ensures
every committed transaction's asset_id is already present in Inventory. -/
theorem C1_transaction_updates_in_place (s : SysState) (pid tech : String)
    (a : Activity) (notes : String) (now : Nat) :
    (submitTransaction s pid tech a notes now).inv.length = s.inv.length ∧
    (∀ i, i < s.inv.length →
      ∃ r r2, s.inv.get? i = some r ∧
        (submitTransaction s pid tech a notes now).inv.get? i = some r2 ∧
        r2.panel_ID = r.panel_ID ∧
        (r.panel_ID ≠ pid → r2 = r) ∧
        (rejected a = true → r2 = r) ∧
        (r.panel_ID = pid → rejected a = false →
          r2 = { r with
                  status := finalStatus a, sub_Status := finalSubStatus a,
                  location := finalLocation a, last_Updated := now })) ∧
    (∀ s2 s3 : SysState, Step s2 (.submit pid tech a notes now) s3 →
      invHasId s2.inv pid = true) := by
  refine ⟨?_, ?_, ?_⟩
  · by_cases h : rejected a
    · rw [submitTransaction_of_rejected s pid tech a notes now h]
    · rw [submitTransaction_of_committed s pid tech a notes now
        (Bool.not_eq_true _ ▸ h)]
      simp [updateInventory]
  · intro i hi
    obtain ⟨r, hr⟩ : ∃ r, s.inv.get? i = some r := by
      rw [List.get?_eq_get hi]
      exact ⟨_, rfl⟩
    by_cases h : rejected a
    · refine ⟨r, r, hr, ?_, rfl, fun _ => rfl, fun _ => rfl, fun _ hfalse => ?_⟩
      · rw [submitTransaction_of_rejected s pid tech a notes now h]
        exact hr
      · rw [h] at hfalse
        exact absurd hfalse (by simp)
    · have hfalse : rejected a = false := Bool.not_eq_true _ ▸ h
      rw [submitTransaction_of_committed s pid tech a notes now hfalse]
      by_cases hpid : r.panel_ID = pid
      · refine ⟨r, { r with
            status := finalStatus a, sub_Status := finalSubStatus a,
            location := finalLocation a, last_Updated := now }, hr, ?_, rfl,
          fun hne => absurd hpid hne, fun hrej => ?_, fun _ _ => rfl⟩
        · show (updateInventory s.inv pid (finalStatus a) (finalSubStatus a)
            (finalLocation a) now).get? i = _
          unfold updateInventory
          rw [List.get?_map, hr]
          simp [hpid]
        · rw [hfalse] at hrej
          exact absurd hrej (by simp)
      · refine ⟨r, r, hr, ?_, rfl, fun _ => rfl, fun _ => rfl,
          fun hp => absurd hp hpid⟩
        show (updateInventory s.inv pid (finalStatus a) (finalSubStatus a)
          (finalLocation a) now).get? i = _
        unfold updateInventory
        rw [List.get?_map, hr]
        simp [hpid]
  · intro s2 s3 h
    cases h with
    | submit _ _ _ _ _ hne hpres => exact hpres

/-- C1 witness: the amended theorem instantiated on the sample state at
row index 0, installing the sample panel into machine ECP 101. -/
theorem C1_transaction_updates_in_place_witness :
    ∃ r r2, sampleState.inv.get? 0 = some r ∧
      (submitTransaction sampleState "54R15564" "Anand"
        (.installToMachine "ECP 101") "" 1).inv.get? 0 = some r2 ∧
      r2.panel_ID = r.panel_ID ∧
      (r.panel_ID ≠ "54R15564" → r2 = r) ∧
      (rejected (.installToMachine "ECP 101") = true → r2 = r) ∧
      (r.panel_ID = "54R15564" → rejected (.installToMachine "ECP 101") = false →
        r2 = { r with
                status := finalStatus (.installToMachine "ECP 101"),
                sub_Status := finalSubStatus (.installToMachine "ECP 101"),
                location := finalLocation (.installToMachine "ECP 101"),
                last_Updated := 1 }) :=
  (C1_transaction_updates_in_place sampleState "54R15564" "Anand"
    (.installToMachine "ECP 101") "" 1).2.1 0 (by decide)

theorem countId_submitTransaction (s : SysState) (pid tech : String) (a : Activity)
    (notes : String) (now : Nat) (pid2 : String) :
    countId (submitTransaction s pid tech a notes now).inv pid2 =
      countId s.inv pid2 := by
  by_cases h : rejected a
  · rw [submitTransaction_of_rejected s pid tech a notes now h]
  · rw [submitTransaction_of_committed s pid tech a notes now
      (Bool.not_eq_true _ ▸ h)]
    exact countId_updateInventory s.inv pid2 pid _ _ _ now

theorem countId_applyTxns (s : SysState) (pid : String) (ts : List TxnInput)
    (pid2 : String) :
    countId (applyTxns s pid ts).inv pid2 = countId s.inv pid2 := by
  induction ts generalizing s with
  | nil => rfl
  | cons t ts ih =>
    simp only [applyTxns, List.foldl_cons] at ih ⊢
    rw [ih, countId_submitTransaction]

theorem applyTxns_hist (s : SysState) (pid : String) (ts : List TxnInput)
    (hcommit : ∀ t ∈ ts, rejected t.activity = false) :
    (applyTxns s pid ts).hist =
      s.hist ++ ts.map (fun t => logEntryOf pid t.tech t.activity t.notes t.now) := by
  induction ts generalizing s with
  | nil => simp [applyTxns]
  | cons t ts ih =>
    have h1 : rejected t.activity = false := hcommit t (List.mem_cons_self t ts)
    have h2 : ∀ t2 ∈ ts, rejected t2.activity = false :=
      fun t2 ht2 => hcommit t2 (List.mem_cons_of_mem t ht2)
    simp only [applyTxns, List.foldl_cons] at ih ⊢
    rw [ih _ h2, submitTransaction_of_committed s pid t.tech t.activity t.notes
      t.now h1]
    simp

/-- C5: applying a sequence of committed transactions against the same
asset_id leaves exactly one Inventory row for that ID (when exactly one
was there to begin with), appends exactly one History row per
transaction, in the order applied, keeping the existing History rows as
an untouched prefix; moreover every reachable state change only ever
appends to the History table. -/
theorem C5_sequence_append_only (s : SysState) (pid : String) (ts : List TxnInput)
    (hcommit : ∀ t ∈ ts, rejected t.activity = false) :
    (countId s.inv pid = 1 → countId (applyTxns s pid ts).inv pid = 1) ∧
    (applyTxns s pid ts).hist =
      s.hist ++ ts.map (fun t => logEntryOf pid t.tech t.activity t.notes t.now) ∧
    (∀ s2 s3 : SysState, ∀ e : Event, Step s2 e s3 →
      ∃ tl, s3.hist = s2.hist ++ tl) := by
  refine ⟨?_, applyTxns_hist s pid ts hcommit, ?_⟩
  · intro h1
    rw [countId_applyTxns]
    exact h1
  · intro s2 s3 e h
    cases h with
    | register pid2 now2 hne habs =>
      exact ⟨[], by simp [registerAsset]⟩
    | submit pid2 tech2 a2 notes2 now2 hne hpres =>
      by_cases hr : rejected a2
      · exact ⟨[], by rw [submitTransaction_of_rejected _ _ _ _ _ _ hr]; simp⟩
      · exact ⟨[logEntryOf pid2 tech2 a2 notes2 now2], by
          rw [submitTransaction_of_committed _ _ _ _ _ _ (Bool.not_eq_true _ ▸ hr)]⟩

/-- C5 witness: the theorem instantiated on the sample state with a
single committed Install transaction. -/
theorem C5_sequence_append_only_witness :
    (countId sampleState.inv "54R15564" = 1 →
      countId (applyTxns sampleState "54R15564"
        [⟨"Anand", .installToMachine "ECP 101", "", 1⟩]).inv "54R15564" = 1) ∧
    (applyTxns sampleState "54R15564"
        [⟨"Anand", .installToMachine "ECP 101", "", 1⟩]).hist =
      sampleState.hist ++
        (([⟨"Anand", .installToMachine "ECP 101", "", 1⟩] : List TxnInput).map
          (fun t => logEntryOf "54R15564" t.tech t.activity t.notes t.now)) ∧
    (∀ s2 s3 : SysState, ∀ e : Event, Step s2 e s3 →
      ∃ tl, s3.hist = s2.hist ++ tl) :=
  C5_sequence_append_only sampleState "54R15564"
    [⟨"Anand", .installToMachine "ECP 101", "", 1⟩] (by decide)

/-- C6: no transaction is ever committed for an asset_id absent from the
Inventory table: every reachable submit step requires a nonempty scanned
ID that is present in the Inventory table of the pre-state, because the
action panel is blocked otherwise. -/
theorem C6_no_transaction_for_absent_id (s s2 : SysState) (pid tech : String)
    (a : Activity) (notes : String) (now : Nat)
    (h : Step s (.submit pid tech a notes now) s2) :
    pid ≠ "" ∧ invHasId s.inv pid = true := by
  cases h with
  | submit _ _ _ _ _ hne hpres => exact ⟨hne, hpres⟩

/-- C6 witness: a concrete committed Install step on the sample state,
whose scanned ID is nonempty and present in the sample inventory. -/
theorem C6_no_transaction_for_absent_id_witness :
    ("54R15564" : String) ≠ "" ∧ invHasId sampleState.inv "54R15564" = true :=
  C6_no_transaction_for_absent_id sampleState _ "54R15564" "Anand"
    (.installToMachine "ECP 101") "" 1
    (Step.submit sampleState "54R15564" "Anand" (.installToMachine "ECP 101") "" 1
      (by decide) (by decide))

theorem invHasId_eq_false_iff (inv : List InvRow) (pid : String) :
    invHasId inv pid = false ↔ ∀ r ∈ inv, r.panel_ID ≠ pid := by
  rw [← Bool.not_eq_true, invHasId_iff]
  push_neg
  rfl

/-- C7: registering an ID already present in the Inventory table is
blocked (every reachable register step requires the ID to be absent),
and every reachable step preserves uniqueness of the Panel_ID column of
the Inventory table. -/
theorem C7_unique_panel_ids (s s2 : SysState) (e : Event) (h : Step s e s2)
    (hnodup : (s.inv.map (fun r => r.panel_ID)).Nodup) :
    (s2.inv.map (fun r => r.panel_ID)).Nodup ∧
    (∀ pid now, e = .register pid now → invHasId s.inv pid = false) := by
  cases h with
  | register pid now hne habs =>
    refine ⟨?_, ?_⟩
    · simp only [registerAsset, List.map_append, List.map_cons, List.map_nil]
      rw [List.nodup_append]
      refine ⟨hnodup, List.nodup_singleton pid, ?_⟩
      intro a ha hb
      obtain ⟨r, hr, hid⟩ := List.mem_map.mp ha
      have hna := (invHasId_eq_false_iff s.inv pid).mp habs r hr
      rw [List.mem_singleton] at hb
      exact hna (hid.trans hb)
    · intro pid2 now2 he
      injection he with h1 h2
      subst h1
      exact habs
  | submit pid tech a notes now hne hpres =>
    refine ⟨?_, ?_⟩
    · by_cases hr : rejected a
      · rw [submitTransaction_of_rejected _ _ _ _ _ _ hr]
        exact hnodup
      · rw [submitTransaction_of_committed _ _ _ _ _ _ (Bool.not_eq_true _ ▸ hr)]
        show ((updateInventory s.inv pid (finalStatus a) (finalSubStatus a)
          (finalLocation a) now).map (fun r => r.panel_ID)).Nodup
        rw [updateInventory_map_panelID]
        exact hnodup
    · intro pid2 now2 he
      exact Event.noConfusion he

/-- C7 witness: registering the sample panel into an empty inventory,
whose Panel_ID column stays duplicate-free. -/
theorem C7_unique_panel_ids_witness :
    (((registerAsset emptyState "54R15564" 0).inv.map
      (fun r => r.panel_ID)).Nodup) ∧
    (∀ pid now, Event.register "54R15564" 0 = .register pid now →
      invHasId emptyState.inv pid = false) :=
  C7_unique_panel_ids emptyState _ (.register "54R15564" 0)
    (Step.register emptyState "54R15564" 0 (by decide) (by decide)) (by decide)

/-- C9: every reachable registration step concerns an ID absent from the
Inventory table and appends exactly one Inventory row with Status
Storage, Sub_Status N/A and Location Storage; the History table is left
unchanged and both tables are persisted as they stand after the
registration. -/
theorem C9_register_creates_storage_row (s s2 : SysState) (pid : String)
    (now : Nat) (h : Step s (.register pid now) s2) :
    invHasId s.inv pid = false ∧
    s2.inv = s.inv ++ [⟨pid, "Storage", "N/A", "Storage", now⟩] ∧
    s2.hist = s.hist ∧ s2.diskInv = s2.inv ∧ s2.diskHist = s2.hist := by
  cases h with
  | register _ _ hne habs => exact ⟨habs, rfl, rfl, rfl, rfl⟩

/-- C9 witness: the theorem instantiated on a concrete registration step
from the empty state. -/
theorem C9_register_creates_storage_row_witness :
    invHasId emptyState.inv "54R15564" = false ∧
    (registerAsset emptyState "54R15564" 0).inv =
      emptyState.inv ++ [⟨"54R15564", "Storage", "N/A", "Storage", 0⟩] ∧
    (registerAsset emptyState "54R15564" 0).hist = emptyState.hist ∧
    (registerAsset emptyState "54R15564" 0).diskInv =
      (registerAsset emptyState "54R15564" 0).inv ∧
    (registerAsset emptyState "54R15564" 0).diskHist =
      (registerAsset emptyState "54R15564" 0).hist :=
  C9_register_creates_storage_row emptyState _ "54R15564" 0
    (Step.register emptyState "54R15564" 0 (by decide) (by decide))

/-- C10: every committed Install transaction is logged with Category
Production, Action Install to Machine and Comments equal to the literal
prefix followed by the free-text notes; every committed Remove
transaction is logged with Action Remove from Machine, its failure
category, and Comments bracketing the category then the Other details
and a separator when the category is Other, else just the notes. -/
theorem C10_history_log_format (s : SysState) (pid tech m notes : String)
    (p : RemoveParams) (now : Nat) :
    ((submitTransaction s pid tech (.installToMachine m) notes now).hist =
      s.hist ++ [⟨now, pid, "Install to Machine", tech, "Production", "N/A",
        "[Production] " ++ notes⟩]) ∧
    (rejected (.removeFromMachine p) = false →
      (submitTransaction s pid tech (.removeFromMachine p) notes now).hist =
        s.hist ++ [⟨now, pid, "Remove from Machine", tech, p.category,
          finalSubStatus (.removeFromMachine p),
          if p.category = "Other" then
            "[" ++ p.category ++ "] " ++ p.otherComment ++ " | " ++ notes
          else
            "[" ++ p.category ++ "] " ++ notes⟩]) := by
  constructor
  · rw [submitTransaction_of_committed s pid tech _ notes now (rejected_install m)]
    rfl
  · intro hc
    rw [submitTransaction_of_committed s pid tech _ notes now hc]
    by_cases h : p.category = "Other"
    · simp [logEntryOf, opTypeStr, activityCategory, fullComment,
        activityOtherComment, h]
    · simp [logEntryOf, opTypeStr, activityCategory, fullComment,
        activityOtherComment, h]

/-- C10 witness: a committed Remove transaction with category Other and
a nonempty explanation, logged with the bracketed category, the Other
details, the separator and the notes. -/
theorem C10_history_log_format_witness :
    (submitTransaction sampleState "54R15564" "Anand"
      (.removeFromMachine ⟨"Damaged", "Other", "cracked", ""⟩) "note" 3).hist =
      sampleState.hist ++ [⟨3, "54R15564", "Remove from Machine", "Anand",
        "Other", "N/A", "[Other] cracked | note"⟩] :=
  (C10_history_log_format sampleState "54R15564" "Anand" "" "note"
    ⟨"Damaged", "Other", "cracked", ""⟩ 3).2 (by decide)

/-- C8 counterexample: load_data does not backfill every missing
expected column.  A loaded Inventory table missing the Status column is
returned still missing Status, and a loaded History table missing the
Comments column is returned still missing Comments. -/
theorem C8_counterexample :
    "Status" ∈ inventoryCols ∧ "Comments" ∈ historyCols ∧
    "Status" ∉ (load_data (some ⟨["Panel_ID", "Sub_Status"], [["54R15564", "N/A"]]⟩)
      (some ⟨["Date"], []⟩)).1.cols ∧
    "Comments" ∉ (load_data (some ⟨["Panel_ID", "Sub_Status"], [["54R15564", "N/A"]]⟩)
      (some ⟨["Date"], []⟩)).2.cols := by
  decide

/-- C8 amended: the only silent backfill load_data performs is on the
Sub_Status column of the Inventory table: when that column is missing it
is appended and every row gets the default cell N/A, and otherwise the
Inventory table is returned as read; the History table is always
returned exactly as read, so any other missing expected column stays
missing.  Loading never fails. -/
theorem C8_load_backfills_only_substatus (tInv tHist : RawTable) :
    "Sub_Status" ∈ (load_data (some tInv) (some tHist)).1.cols ∧
    ("Sub_Status" ∈ tInv.cols → (load_data (some tInv) (some tHist)).1 = tInv) ∧
    ("Sub_Status" ∉ tInv.cols →
      (load_data (some tInv) (some tHist)).1.cols = tInv.cols ++ ["Sub_Status"] ∧
      (load_data (some tInv) (some tHist)).1.rows =
        tInv.rows.map (fun r => r ++ ["N/A"])) ∧
    (load_data (some tInv) (some tHist)).2 = tHist := by
  by_cases h : "Sub_Status" ∈ tInv.cols
  · exact ⟨by simp [load_data, h], fun _ => by simp [load_data, h],
      fun h2 => absurd h h2, rfl⟩
  · refine ⟨?_, fun h2 => absurd h2 h, fun _ => ⟨?_, ?_⟩, rfl⟩
    · simp [load_data, h, addColumn]
    · simp [load_data, h, addColumn]
    · simp [load_data, h, addColumn]

/-- C8 amended witness: the theorem instantiated on an inventory table
missing Sub_Status and a history table with only a Date column. -/
theorem C8_load_backfills_only_substatus_witness :
    "Sub_Status" ∈ (load_data (some ⟨["Panel_ID"], [["A1"]]⟩)
      (some ⟨["Date"], []⟩)).1.cols ∧
    ("Sub_Status" ∈ (⟨["Panel_ID"], [["A1"]]⟩ : RawTable).cols →
      (load_data (some ⟨["Panel_ID"], [["A1"]]⟩) (some ⟨["Date"], []⟩)).1 =
        ⟨["Panel_ID"], [["A1"]]⟩) ∧
    ("Sub_Status" ∉ (⟨["Panel_ID"], [["A1"]]⟩ : RawTable).cols →
      (load_data (some ⟨["Panel_ID"], [["A1"]]⟩) (some ⟨["Date"], []⟩)).1.cols =
        (⟨["Panel_ID"], [["A1"]]⟩ : RawTable).cols ++ ["Sub_Status"] ∧
      (load_data (some ⟨["Panel_ID"], [["A1"]]⟩) (some ⟨["Date"], []⟩)).1.rows =
        (⟨["Panel_ID"], [["A1"]]⟩ : RawTable).rows.map (fun r => r ++ ["N/A"])) ∧
    (load_data (some ⟨["Panel_ID"], [["A1"]]⟩) (some ⟨["Date"], []⟩)).2 =
      ⟨["Date"], []⟩ :=
  C8_load_backfills_only_substatus ⟨["Panel_ID"], [["A1"]]⟩ ⟨["Date"], []⟩

end PanelTracking
